import Mathlib

/-!
Verification development for the lianke print-box MCP server (`src/main.py`).

The eight exposed operations are shallowly embedded as pure Lean functions.
Python dictionaries and JSON payloads are modelled by `JValue`; Python
exceptions by `PyExc`; results of a call are `Except PyExc JValue` paired
with the list of remote invocations (`RemoteCall`) the call issued, so that
claims about "no network call happens" are statements about that trace.
External collaborators (the `LiankePrinting` client, `requests.get`,
`json.loads`, `mimetypes.guess_type`, the local filesystem) live in an
`Env` record of oracles; the operations consume them exactly at the places
the Python source does.
-/

set_option autoImplicit false

namespace LiankePrint

/-- JSON-like Python values: `None`, booleans, integers, strings, lists and
string-keyed dictionaries (association lists in declaration order, the order
Python dictionaries preserve). -/
inductive JValue where
  | null : JValue
  | bool : Bool → JValue
  | int : Int → JValue
  | str : String → JValue
  | list : List JValue → JValue
  | obj : List (String × JValue) → JValue

instance : Inhabited JValue := ⟨JValue.null⟩

/-- Python exceptions relevant to `src/main.py`: the remote-service fault
`LiankePrintingException` (carrying an optional error code and a message),
`ValueError`, `requests.RequestException` (which also covers the `HTTPError`
raised by `raise_for_status` on a non-2xx response), and a catch-all for any
other `Exception`. -/
inductive PyExc where
  | lianke : Option Int → String → PyExc
  | valueError : String → PyExc
  | requestExc : String → PyExc
  | other : String → PyExc
deriving DecidableEq, Repr

/-- `str(e)` for the exceptions of `PyExc`: the carried message. -/
def PyExc.message : PyExc → String
  | .lianke _ msg => msg
  | .valueError msg => msg
  | .requestExc msg => msg
  | .other msg => msg

/-- Python truthiness of an `Optional[str]`: `None` and `""` are falsy. -/
def optStrTruthy : Option String → Bool
  | none => false
  | some s => s != ""

/-- Python `a or b` on `Optional[str]` values: the first operand when it is
truthy, otherwise the second. -/
def pyOr (a b : Option String) : Option String :=
  if optStrTruthy a then a else b

/-- Python truthiness of a `JValue`. -/
def JValue.truthy : JValue → Bool
  | .null => false
  | .bool b => b
  | .int n => n != 0
  | .str s => s != ""
  | .list xs => !xs.isEmpty
  | .obj fs => !fs.isEmpty

/-- First binding of a key in a dictionary, as Python lookup does. -/
def lookupJ : List (String × JValue) → String → Option JValue
  | [], _ => none
  | (k, v) :: rest, key => if k = key then some v else lookupJ rest key

/-- Python `d[k] = v` on a dictionary: replace the value in place when the
key exists, append the binding otherwise. -/
def setKey : List (String × JValue) → String → JValue → List (String × JValue)
  | [], k, v => [(k, v)]
  | (k0, v0) :: rest, k, v =>
    if k0 = k then (k0, v) :: rest else (k0, v0) :: setKey rest k v

/-- Python `d.update(extra)` for a dictionary `extra`: assign each binding of
`extra` in order. -/
def dictUpdate (d : List (String × JValue)) (extra : List (String × JValue)) :
    List (String × JValue) :=
  extra.foldl (fun acc kv => setKey acc kv.1 kv.2) d

/-- Python `v.get(k, dflt)`: defined on dictionaries, an `AttributeError` on
every other value. -/
def jGet (v : JValue) (k : String) (dflt : JValue) : Except PyExc JValue :=
  match v with
  | .obj fs => .ok ((lookupJ fs k).getD dflt)
  | _ => .error (.other "AttributeError: object has no attribute get")

/-- Python `v[k]` for a string key: a dictionary lookup raising `KeyError`
when absent, a `TypeError` on non-dictionaries. -/
def jGetItem (v : JValue) (k : String) : Except PyExc JValue :=
  match v with
  | .obj fs =>
    match lookupJ fs k with
    | some x => .ok x
    | none => .error (.other ("KeyError: " ++ k))
  | _ => .error (.other "TypeError: object is not subscriptable")

/-- Python `v[0]`: the head of a list, the first character of a non-empty
string, an `IndexError` on an empty one, a `TypeError` otherwise. -/
def jFirst : JValue → Except PyExc JValue
  | .list (x :: _) => .ok x
  | .list [] => .error (.other "IndexError: list index out of range")
  | .str s =>
    if s = "" then .error (.other "IndexError: string index out of range")
    else .ok (.str (String.mk (s.data.take 1)))
  | _ => .error (.other "TypeError: object is not subscriptable")

/-- Python `len(v)`: defined on strings, lists and dictionaries, a
`TypeError` on every other value. -/
def pyLen : JValue → Except PyExc Int
  | .str s => .ok (Int.ofNat s.length)
  | .list xs => .ok (Int.ofNat xs.length)
  | .obj fs => .ok (Int.ofNat fs.length)
  | _ => .error (.other "TypeError: object has no len")

/-- The `{"code": ..., "msg": ...}` failure envelope built throughout
`src/main.py`. -/
def mkResult (code : Int) (msg : String) : JValue :=
  .obj [("code", .int code), ("msg", .str msg)]

/-- `e.code or 503` from the exception handlers: the reported code when it
is present and nonzero, `503` when it is absent or zero (Python treats both
`None` and `0` as falsy). -/
def liankeOr503 : Option Int → Int
  | none => 503
  | some c => if c = 0 then 503 else c

/-- ASCII whitespace as stripped by `int()`. -/
def isSpaceChar (c : Char) : Bool :=
  c == ' ' || c == '\t' || c == '\n' || c == '\r' || c == '\x0b' || c == '\x0c'

/-- Strip leading and trailing whitespace from a character list. -/
def trimChars (cs : List Char) : List Char :=
  ((cs.dropWhile isSpaceChar).reverse.dropWhile isSpaceChar).reverse

/-- A non-empty run of decimal digits, allowing the single underscores
between digits that Python integer literals accept. -/
def digitSeqTail : List Char → Bool
  | [] => true
  | '_' :: c :: rest => c.isDigit && digitSeqTail rest
  | '_' :: [] => false
  | c :: rest => c.isDigit && digitSeqTail rest

/-- Whether a character list is a valid digit part for `int()`. -/
def digitSeq : List Char → Bool
  | [] => false
  | '_' :: _ => false
  | c :: rest => c.isDigit && digitSeqTail rest

/-- Decimal value of a digit list (underscores removed beforehand). -/
def digitsVal (cs : List Char) : Nat :=
  cs.foldl (fun a c => a * 10 + (c.toNat - 48)) 0

/-- Python `int(s)` restricted to base-10 ASCII: strip whitespace, allow one
leading sign, then digits with optional single separating underscores;
`none` when the text is not a valid integer literal. -/
def pyParseInt (s : String) : Option Int :=
  match trimChars s.data with
  | '+' :: rest =>
    if digitSeq rest then some (Int.ofNat (digitsVal (rest.filter (fun c => c != '_'))))
    else none
  | '-' :: rest =>
    if digitSeq rest then some (-(Int.ofNat (digitsVal (rest.filter (fun c => c != '_')))))
    else none
  | cs =>
    if digitSeq cs then some (Int.ofNat (digitsVal (cs.filter (fun c => c != '_'))))
    else none

/-- Python `int(s)` as used in the job-parameter construction: a value, or
the `ValueError` that aborts the construction. -/
def pyInt (s : String) : Except PyExc Int :=
  match pyParseInt s with
  | some n => .ok n
  | none => .error (.valueError ("invalid literal for int() with base 10: " ++ s))

/-- Raw document bytes. -/
abbrev Bytes := List Nat

/-- One multipart file entry `("jobFile", (filename, stream, mimetype))`:
field name, filename, bytes and MIME type. -/
abbrev JobFile := String × String × Bytes × String

/-- Outcome of `json.loads(kwargs)` followed by `job_params.update(...)`,
treated as an oracle of the standard library:
`objData pairs` when `json.loads` yields a dictionary (or an
update-compatible sequence of string-keyed pairs) with the given bindings;
`updateError e` when `json.loads` succeeds but `dict.update` raises `e` on
the resulting non-dictionary value; `decodeError` when `json.loads` raises
`json.JSONDecodeError`. -/
inductive JsonOutcome where
  | objData : List (String × JValue) → JsonOutcome
  | updateError : PyExc → JsonOutcome
  | decodeError : JsonOutcome

/-- A remote invocation issued by an operation: the five read accessors, the
multipart job submission, the job cancellation, and the document download
performed with `requests.get(url, timeout)`. -/
inductive RemoteCall where
  | deviceInfoCall : RemoteCall
  | printerListCall : Int → RemoteCall
  | printerParamsCall : String → RemoteCall
  | printerStatusCall : String → RemoteCall
  | jobResultCall : String → RemoteCall
  | cancelJobCall : String → RemoteCall
  | addJobCall : List JobFile → JValue → List (String × JValue) → RemoteCall
  | fetchCall : String → Int → RemoteCall

/-- The inbound request headers consulted by every operation. -/
structure Headers where
  apiKey : Option String
  deviceId : Option String
  deviceKey : Option String

/-- Behaviour of the external collaborators for one call: the remote
`LiankePrinting` client verbs (each may return a parsed response or raise),
the document download, `json.loads`/`dict.update` on the overrides payload,
`mimetypes.guess_type`, and the local filesystem. -/
structure Env where
  device_info : Except PyExc JValue
  printer_list : Int → Except PyExc JValue
  printer_params : String → Except PyExc JValue
  printer_status : String → Except PyExc JValue
  job_result : String → Except PyExc JValue
  cancel_job : String → Except PyExc JValue
  add_job : List JobFile → JValue → List (String × JValue) → Except PyExc JValue
  fetch : String → Int → Except PyExc Bytes
  json_loads : String → JsonOutcome
  guess_type : String → Option String
  path_exists : String → Bool
  read_file : String → Except PyExc Bytes

/-- Result of one operation: the returned value or the exception escaping
its boundary, paired with the trace of remote invocations it issued. -/
abbrev OpOutcome := Except PyExc JValue × List RemoteCall

/-- The `LiankePrinting` client constructor guard of `create_lianke_client`:
raises `ValueError` when any of the three credential fields is falsy. -/
def create_lianke_client (api_key device_id device_key : Option String) :
    Except PyExc Unit :=
  if !optStrTruthy api_key || !optStrTruthy device_id || !optStrTruthy device_key then
    .error (.valueError "API密钥、设备ID和设备密钥不能为空")
  else
    .ok ()

/-- The shared `except` ladder closing each guarded operation:
`LiankePrintingException` becomes `{code: e.code or 503, msg: e.msg}`,
`ValueError` becomes a 400 result, and any other exception becomes a 503
result whose message prefixes the operation-specific text to `str(e)`. -/
def handle (pre : String) (r : OpOutcome) : OpOutcome :=
  match r with
  | (.ok v, t) => (.ok v, t)
  | (.error (.lianke code msg), t) => (.ok (mkResult (liankeOr503 code) msg), t)
  | (.error (.valueError msg), t) => (.ok (mkResult 400 msg), t)
  | (.error e, t) => (.ok (mkResult 503 (pre ++ e.message)), t)

/-- `result.get("data", {}).get("row", [])`, the printer-row extraction. -/
def extractRow (result : JValue) : Except PyExc JValue :=
  match jGet result "data" (.obj []) with
  | .error e => .error e
  | .ok d => jGet d "row" (.list [])

/-- `get_device_info` (src/main.py lines 47-64): resolve the device context
from headers with argument fallback, reject a missing `ApiKey`, then build
the client and call `device_info`. This operation has no `try` block, so
both the constructor `ValueError` and any client exception escape it. -/
def get_device_info (E : Env) (h : Headers) (device_id device_key : Option String) :
    OpOutcome :=
  let api_key := h.apiKey
  let device_id := pyOr h.deviceId device_id
  let device_key := pyOr h.deviceKey device_key
  if !optStrTruthy api_key then
    (.ok (mkResult 400 "请求头中缺少 ApiKey"), [])
  else
    match create_lianke_client api_key device_id device_key with
    | .error e => (.error e, [])
    | .ok _ =>
      match E.device_info with
      | .ok v => (.ok v, [.deviceInfoCall])
      | .error e => (.error e, [.deviceInfoCall])

/-- Guarded body of `get_printer_list` (src/main.py lines 88-111). -/
def get_printer_list_body (E : Env) (h : Headers)
    (device_id device_key : Option String) (printer_type : Int) : OpOutcome :=
  let api_key := h.apiKey
  let device_id := pyOr h.deviceId device_id
  let device_key := pyOr h.deviceKey device_key
  if !optStrTruthy api_key then
    (.ok (mkResult 400 "请求头中缺少 ApiKey"), [])
  else
    match create_lianke_client api_key device_id device_key with
    | .error e => (.error e, [])
    | .ok _ =>
      match E.printer_list printer_type with
      | .error e => (.error e, [.printerListCall printer_type])
      | .ok result =>
        match extractRow result with
        | .error e => (.error e, [.printerListCall printer_type])
        | .ok printers =>
          match pyLen printers with
          | .error e => (.error e, [.printerListCall printer_type])
          | .ok n =>
            (.ok (.obj [("code", .int 200), ("msg", .str "success"),
               ("data", .obj [("printers", printers), ("total", .int n)])]),
             [.printerListCall printer_type])

/-- `get_printer_list` (src/main.py lines 67-118): guarded body plus the
shared exception ladder with the list-specific 503 prefix. -/
def get_printer_list (E : Env) (h : Headers)
    (device_id device_key : Option String) (printer_type : Int) : OpOutcome :=
  handle "获取打印机列表失败: " (get_printer_list_body E h device_id device_key printer_type)

/-- `get_default_printer` (src/main.py lines 121-134): query the USB printer
list and take the first `hash_id`; any exception as well as an empty list
yields `None` (modelled as `JValue.null`). -/
def get_default_printer (E : Env) (api_key device_id device_key : Option String) :
    JValue × List RemoteCall :=
  match create_lianke_client api_key device_id device_key with
  | .error _ => (.null, [])
  | .ok _ =>
    match E.printer_list 1 with
    | .error _ => (.null, [.printerListCall 1])
    | .ok result =>
      match extractRow result with
      | .error _ => (.null, [.printerListCall 1])
      | .ok printers =>
        if !printers.truthy then (.null, [.printerListCall 1])
        else
          match jFirst printers with
          | .error _ => (.null, [.printerListCall 1])
          | .ok p =>
            match jGetItem p "hash_id" with
            | .error _ => (.null, [.printerListCall 1])
            | .ok hv => (hv, [.printerListCall 1])

/-- Guarded body of `get_printer_params` (src/main.py lines 155-175). -/
def get_printer_params_body (E : Env) (h : Headers) (printer_hash : String)
    (device_id device_key : Option String) : OpOutcome :=
  let api_key := h.apiKey
  let device_id := pyOr h.deviceId device_id
  let device_key := pyOr h.deviceKey device_key
  if !optStrTruthy api_key then
    (.ok (mkResult 400 "请求头中缺少 ApiKey"), [])
  else
    match create_lianke_client api_key device_id device_key with
    | .error e => (.error e, [])
    | .ok _ =>
      match E.printer_params printer_hash with
      | .error e => (.error e, [.printerParamsCall printer_hash])
      | .ok result =>
        match jGet result "data" (.obj []) with
        | .error e => (.error e, [.printerParamsCall printer_hash])
        | .ok d =>
          (.ok (.obj [("code", .int 200), ("msg", .str "success"), ("data", d)]),
           [.printerParamsCall printer_hash])

/-- `get_printer_params` (src/main.py lines 137-182). -/
def get_printer_params (E : Env) (h : Headers) (printer_hash : String)
    (device_id device_key : Option String) : OpOutcome :=
  handle "获取打印机参数失败: " (get_printer_params_body E h printer_hash device_id device_key)

/-- Guarded body of `get_job_status` (src/main.py lines 438-454). -/
def get_job_status_body (E : Env) (h : Headers) (task_id : String)
    (device_id device_key : Option String) : OpOutcome :=
  let api_key := h.apiKey
  let device_id := pyOr h.deviceId device_id
  let device_key := pyOr h.deviceKey device_key
  if !optStrTruthy api_key then
    (.ok (mkResult 400 "请求头中缺少 ApiKey"), [])
  else
    match create_lianke_client api_key device_id device_key with
    | .error e => (.error e, [])
    | .ok _ =>
      match E.job_result task_id with
      | .ok v => (.ok v, [.jobResultCall task_id])
      | .error e => (.error e, [.jobResultCall task_id])

/-- `get_job_status` (src/main.py lines 419-462). -/
def get_job_status (E : Env) (h : Headers) (task_id : String)
    (device_id device_key : Option String) : OpOutcome :=
  handle "查询任务状态失败: " (get_job_status_body E h task_id device_id device_key)

/-- Guarded body of `cancel_print_job` (src/main.py lines 483-499). -/
def cancel_print_job_body (E : Env) (h : Headers) (task_id : String)
    (device_id device_key : Option String) : OpOutcome :=
  let api_key := h.apiKey
  let device_id := pyOr h.deviceId device_id
  let device_key := pyOr h.deviceKey device_key
  if !optStrTruthy api_key then
    (.ok (mkResult 400 "请求头中缺少 ApiKey"), [])
  else
    match create_lianke_client api_key device_id device_key with
    | .error e => (.error e, [])
    | .ok _ =>
      match E.cancel_job task_id with
      | .ok v => (.ok v, [.cancelJobCall task_id])
      | .error e => (.error e, [.cancelJobCall task_id])

/-- `cancel_print_job` (src/main.py lines 465-507). -/
def cancel_print_job (E : Env) (h : Headers) (task_id : String)
    (device_id device_key : Option String) : OpOutcome :=
  handle "取消任务失败: " (cancel_print_job_body E h task_id device_id device_key)

/-- Guarded body of `get_printer_status` (src/main.py lines 528-546),
including the explicit `None` check on the client result. -/
def get_printer_status_body (E : Env) (h : Headers) (printer_hash : String)
    (device_id device_key : Option String) : OpOutcome :=
  let api_key := h.apiKey
  let device_id := pyOr h.deviceId device_id
  let device_key := pyOr h.deviceKey device_key
  if !optStrTruthy api_key then
    (.ok (mkResult 400 "请求头中缺少 ApiKey"), [])
  else
    match create_lianke_client api_key device_id device_key with
    | .error e => (.error e, [])
    | .ok _ =>
      match E.printer_status printer_hash with
      | .error e => (.error e, [.printerStatusCall printer_hash])
      | .ok v =>
        match v with
        | .null => (.ok (mkResult 503 "获取打印机状态失败"), [.printerStatusCall printer_hash])
        | _ => (.ok v, [.printerStatusCall printer_hash])

/-- `get_printer_status` (src/main.py lines 510-554). -/
def get_printer_status (E : Env) (h : Headers) (printer_hash : String)
    (device_id device_key : Option String) : OpOutcome :=
  handle "获取打印机状态失败: " (get_printer_status_body E h printer_hash device_id device_key)

/-- The `job_params` dictionary literal of both submission paths
(src/main.py lines 237-243 and 382-388): the four numeric options pass
through `int()` in evaluation order, `jpScale` stays a string; the first
invalid number raises the `ValueError` of `int()`. -/
def buildBaseParams (dm_paper_size jp_scale dm_orientation dm_copies dm_color : String) :
    Except PyExc (List (String × JValue)) :=
  match pyInt dm_paper_size with
  | .error e => .error e
  | .ok ps =>
    match pyInt dm_orientation with
    | .error e => .error e
    | .ok ori =>
      match pyInt dm_copies with
      | .error e => .error e
      | .ok cp =>
        match pyInt dm_color with
        | .error e => .error e
        | .ok col =>
          .ok [("dmPaperSize", .int ps), ("jpScale", .str jp_scale),
               ("dmOrientation", .int ori), ("dmCopies", .int cp), ("dmColor", .int col)]

/-- Python `c in s` for a one-character needle: whether the character occurs
in the string. -/
def strContainsChar (s : String) (c : Char) : Bool :=
  s.data.contains c

/-- Helper of `splitOnChar`, accumulating the current fragment reversed. -/
def splitOnCharAux (c : Char) : List Char → List Char → List String
  | [], acc => [String.mk acc.reverse]
  | x :: rest, acc =>
    if x = c then String.mk acc.reverse :: splitOnCharAux c rest []
    else splitOnCharAux c rest (x :: acc)

/-- Python `s.split(sep)` for a one-character separator: every occurrence
splits, empty fragments are kept, and an empty string yields `[""]`. -/
def splitOnChar (s : String) (c : Char) : List String :=
  splitOnCharAux c s.data []

/-- Python `s.strip()` restricted to ASCII whitespace. -/
def pyStrip (s : String) : String :=
  String.mk (trimChars s.data)

/-- Python `s.lower()` (ASCII case folding). -/
def pyLower (s : String) : String :=
  String.mk (s.data.map Char.toLower)

/-- Python `s.split(sep, 1)` for a one-character separator, returning the
parts before and after the first occurrence (the whole string and `""` when
the separator is absent). -/
def splitFirstAux : List Char → Char → List Char → Option (List Char × List Char)
  | [], _, _ => none
  | x :: rest, c, acc =>
    if x = c then some (acc.reverse, rest) else splitFirstAux rest c (x :: acc)

/-- See `splitFirstAux`. -/
def splitFirst (s : String) (c : Char) : String × String :=
  match splitFirstAux s.data c [] with
  | some (a, b) => (String.mk a, String.mk b)
  | none => (s, "")

/-- The `key=value` fallback loop of the overrides merge (src/main.py lines
253-258): split on commas, assign each fragment containing `=` under its
stripped key with the stripped remainder as a string value. -/
def applyPairs (base : List (String × JValue)) (parts : List String) :
    List (String × JValue) :=
  parts.foldl
    (fun acc part =>
      if strContainsChar part '=' then
        setKey acc (pyStrip (splitFirst part '=').1) (.str (pyStrip (splitFirst part '=').2))
      else acc)
    base

/-- The overrides merge of both submission paths (src/main.py lines
246-258): skip an empty payload, try `json.loads` and `dict.update`, and on
a `JSONDecodeError` fall back to comma-separated `key=value` fragments when
the payload contains `=` at all, else drop the overrides. -/
def mergeKwargs (json_loads : String → JsonOutcome)
    (base : List (String × JValue)) (kwargs : String) :
    Except PyExc (List (String × JValue)) :=
  if kwargs = "" then .ok base
  else
    match json_loads kwargs with
    | .objData pairs => .ok (dictUpdate base pairs)
    | .updateError e => .error e
    | .decodeError =>
      if strContainsChar kwargs '=' then .ok (applyPairs base (splitOnChar kwargs ','))
      else .ok base

/-- `job_file_url.split('/')[-1] or 'document.pdf'` (src/main.py line 266). -/
def filenameFromUrl (url : String) : String :=
  let lastSeg := (splitOnChar url '/').getLastD ""
  if lastSeg = "" then "document.pdf" else lastSeg

/-- MIME resolution of the URL submission path (src/main.py lines 269-271):
`mimetypes.guess_type` and, when that is falsy, the generic binary type. -/
def resolveMimeUrl (guess : String → Option String) (url : String) : String :=
  if !optStrTruthy (guess url) then "application/octet-stream"
  else (guess url).getD ""

/-- `os.path.basename` for forward-slash paths (src/main.py line 353). -/
def basename (path : String) : String :=
  (splitOnChar path '/').getLastD ""

/-- Index of the last occurrence of a character in a list. -/
def rfindChar (cs : List Char) (c : Char) : Option Nat :=
  (List.range cs.length).foldl
    (fun acc i => if cs.getD i ' ' = c then some i else acc) none

/-- `os.path.splitext(name)[1]` on a bare filename: the suffix from the last
dot, unless every character before that dot is itself a dot. -/
def splitextExt (name : String) : String :=
  match rfindChar name.data '.' with
  | none => ""
  | some d =>
    if (List.range d).all (fun j => name.data.getD j ' ' = '.') then ""
    else String.mk (name.data.drop d)

/-- The fixed extension table of the local submission path (src/main.py
lines 358-372). -/
def mimetype_map : List (String × String) :=
  [(".pdf", "application/pdf"),
   (".jpg", "image/jpeg"),
   (".jpeg", "image/jpeg"),
   (".png", "image/png"),
   (".gif", "image/gif"),
   (".bmp", "image/bmp"),
   (".doc", "application/msword"),
   (".docx", "application/vnd.openxmlformats-officedocument.wordprocessingml.document"),
   (".xls", "application/vnd.ms-excel"),
   (".xlsx", "application/vnd.openxmlformats-officedocument.spreadsheetml.sheet"),
   (".ppt", "application/vnd.ms-powerpoint"),
   (".pptx", "application/vnd.openxmlformats-officedocument.presentationml.presentation"),
   (".txt", "text/plain")]

/-- First value bound to a key in a string table. -/
def lookupStr : List (String × String) → String → Option String
  | [], _ => none
  | (k, v) :: rest, key => if k = key then some v else lookupStr rest key

/-- MIME resolution of the local submission path (src/main.py lines
354-373): `mimetypes.guess_type` on the path and, when that is falsy, the
fixed table keyed by the lower-cased extension of the basename, defaulting
to the generic binary type. -/
def resolveMimeFile (guess : String → Option String) (path filename : String) : String :=
  if !optStrTruthy (guess path) then
    (lookupStr mimetype_map (pyLower (splitextExt filename))).getD "application/octet-stream"
  else (guess path).getD ""

/-- `hash_id` argument as the Python value seen by the truthiness test. -/
def hashOfArg : Option String → JValue
  | some s => .str s
  | none => .null

/-- Guarded body of `submit_print_job` (src/main.py lines 217-282): resolve
the device context, reject a missing `ApiKey`, resolve the default printer
when `hash_id` is falsy (404 when none), build the client, convert the
numeric options, merge the overrides, then inside an inner `try` download
the document with `requests.get(url, timeout=30)`, attach it, and submit;
only `requests.RequestException` is caught by that inner `try`, as the 400
download failure. -/
def submit_print_job_body (E : Env) (h : Headers) (job_file_url kwargs : String)
    (device_id device_key hash_id : Option String)
    (dm_paper_size jp_scale dm_orientation dm_copies dm_color : String) : OpOutcome :=
  let api_key := h.apiKey
  let device_id := pyOr h.deviceId device_id
  let device_key := pyOr h.deviceKey device_key
  if !optStrTruthy api_key then
    (.ok (mkResult 400 "请求头中缺少 ApiKey"), [])
  else
    let resolved : JValue × List RemoteCall :=
      if !(hashOfArg hash_id).truthy then
        get_default_printer E api_key device_id device_key
      else (hashOfArg hash_id, [])
    let hash := resolved.1
    let t0 := resolved.2
    if !hash.truthy then
      (.ok (mkResult 404 "打印未连接"), t0)
    else
      match create_lianke_client api_key device_id device_key with
      | .error e => (.error e, t0)
      | .ok _ =>
        match buildBaseParams dm_paper_size jp_scale dm_orientation dm_copies dm_color with
        | .error e => (.error e, t0)
        | .ok base =>
          match mergeKwargs E.json_loads base kwargs with
          | .error e => (.error e, t0)
          | .ok job_params =>
            match E.fetch job_file_url 30 with
            | .error (.requestExc m) =>
              (.ok (mkResult 400 ("下载文件失败: " ++ m)), t0 ++ [.fetchCall job_file_url 30])
            | .error e => (.error e, t0 ++ [.fetchCall job_file_url 30])
            | .ok file_content =>
              let filename := filenameFromUrl job_file_url
              let mimetype := resolveMimeUrl E.guess_type job_file_url
              let job_files : List JobFile := [("jobFile", filename, file_content, mimetype)]
              match E.add_job job_files hash job_params with
              | .ok v =>
                (.ok v, t0 ++ [.fetchCall job_file_url 30, .addJobCall job_files hash job_params])
              | .error (.requestExc m) =>
                (.ok (mkResult 400 ("下载文件失败: " ++ m)),
                 t0 ++ [.fetchCall job_file_url 30, .addJobCall job_files hash job_params])
              | .error e =>
                (.error e, t0 ++ [.fetchCall job_file_url 30, .addJobCall job_files hash job_params])

/-- `submit_print_job` (src/main.py lines 185-290). -/
def submit_print_job (E : Env) (h : Headers) (job_file_url kwargs : String)
    (device_id device_key hash_id : Option String)
    (dm_paper_size jp_scale dm_orientation dm_copies dm_color : String) : OpOutcome :=
  handle "提交打印任务失败: "
    (submit_print_job_body E h job_file_url kwargs device_id device_key hash_id
      dm_paper_size jp_scale dm_orientation dm_copies dm_color)

/-- Guarded body of `submit_print_job_with_file` (src/main.py lines
325-408): resolve the device context, reject a missing `ApiKey`, resolve
the default printer when `printer_hash` is falsy (404 when none), check the
local file exists (400 naming the path otherwise), read it (an inner `try`
turns any read failure into a 400), resolve filename and MIME type, build
the client, convert the numeric options, merge the overrides, and submit. -/
def submit_print_job_with_file_body (E : Env) (h : Headers) (file_path : String)
    (printer_hash : Option String) (kwargs : String)
    (device_id device_key : Option String)
    (dm_paper_size jp_scale dm_orientation dm_copies dm_color : String) : OpOutcome :=
  let api_key := h.apiKey
  let device_id := pyOr h.deviceId device_id
  let device_key := pyOr h.deviceKey device_key
  if !optStrTruthy api_key then
    (.ok (mkResult 400 "请求头中缺少 ApiKey"), [])
  else
    let resolved : JValue × List RemoteCall :=
      if !(hashOfArg printer_hash).truthy then
        get_default_printer E api_key device_id device_key
      else (hashOfArg printer_hash, [])
    let hash := resolved.1
    let t0 := resolved.2
    if !hash.truthy then
      (.ok (mkResult 404 "打印未连接"), t0)
    else
      if !(E.path_exists file_path) then
        (.ok (mkResult 400 ("文件不存在: " ++ file_path)), t0)
      else
        match E.read_file file_path with
        | .error e => (.ok (mkResult 400 ("读取文件失败: " ++ e.message)), t0)
        | .ok file_content =>
          let filename := basename file_path
          let mimetype := resolveMimeFile E.guess_type file_path filename
          match create_lianke_client api_key device_id device_key with
          | .error e => (.error e, t0)
          | .ok _ =>
            let job_files : List JobFile := [("jobFile", filename, file_content, mimetype)]
            match buildBaseParams dm_paper_size jp_scale dm_orientation dm_copies dm_color with
            | .error e => (.error e, t0)
            | .ok base =>
              match mergeKwargs E.json_loads base kwargs with
              | .error e => (.error e, t0)
              | .ok job_params =>
                match E.add_job job_files hash job_params with
                | .ok v => (.ok v, t0 ++ [.addJobCall job_files hash job_params])
                | .error e => (.error e, t0 ++ [.addJobCall job_files hash job_params])

/-- `submit_print_job_with_file` (src/main.py lines 293-416). -/
def submit_print_job_with_file (E : Env) (h : Headers) (file_path : String)
    (printer_hash : Option String) (kwargs : String)
    (device_id device_key : Option String)
    (dm_paper_size jp_scale dm_orientation dm_copies dm_color : String) : OpOutcome :=
  handle "提交打印任务失败: "
    (submit_print_job_with_file_body E h file_path printer_hash kwargs device_id device_key
      dm_paper_size jp_scale dm_orientation dm_copies dm_color)

theorem handle_snd (pre : String) (r : OpOutcome) : (handle pre r).2 = r.2 := by
  rcases r with ⟨res, t⟩
  cases res with
  | ok v => rfl
  | error e => cases e <;> rfl

theorem handle_never_raises (pre : String) (r : OpOutcome) :
    ∃ v, (handle pre r).1 = Except.ok v := by
  rcases r with ⟨res, t⟩
  cases res with
  | ok v => exact ⟨v, rfl⟩
  | error e => cases e <;> exact ⟨_, rfl⟩

theorem dictUpdate_nil (d : List (String × JValue)) : dictUpdate d [] = d := rfl

theorem truthy_null : JValue.truthy .null = false := rfl

theorem truthy_str (s : String) : (JValue.str s).truthy = (s != "") := rfl

theorem truthy_list (xs : List JValue) : (JValue.list xs).truthy = !xs.isEmpty := rfl

theorem hashOfArg_none : hashOfArg none = .null := rfl

theorem hashOfArg_some (s : String) : hashOfArg (some s) = .str s := rfl

theorem lookupStr_getD_ne_empty (l : List (String × String)) (key d : String)
    (hl : ∀ p ∈ l, p.2 ≠ "") (hd : d ≠ "") : (lookupStr l key).getD d ≠ "" := by
  induction l with
  | nil => simpa [lookupStr] using hd
  | cons p rest ih =>
    rcases p with ⟨k, v⟩
    by_cases hk : k = key
    · simpa [lookupStr, hk] using hl (k, v) (List.mem_cons_self _ _)
    · simpa [lookupStr, hk] using ih fun q hq => hl q (List.mem_cons_of_mem _ hq)

/-! ## Concrete headers and environments for witnesses and counterexamples -/

/-- Headers carrying all three credentials. -/
def hdrFull : Headers := ⟨some "k", some "d", some "dk"⟩

/-- Headers with no `ApiKey`. -/
def hdrNoApi : Headers := ⟨none, some "d", some "dk"⟩

/-- Headers with `ApiKey` only. -/
def hdrOnlyApi : Headers := ⟨some "k", none, none⟩

/-- A printer-list response whose `data.row` holds the given entries. -/
def rowsResult (rows : List JValue) : JValue :=
  .obj [("data", .obj [("row", .list rows)])]

/-- The job parameters produced from the default option strings. -/
def paramsDefault : List (String × JValue) :=
  [("dmPaperSize", .int 9), ("jpScale", .str "fit"), ("dmOrientation", .int 1),
   ("dmCopies", .int 1), ("dmColor", .int 1)]

/-- A benign environment: one USB printer `h1`, all verbs succeed, overrides
payloads fail structured parsing, MIME inference yields nothing, the local
file exists and reads as `[7]`. -/
def envBase : Env :=
  ⟨.ok (mkResult 200 "ok"),
   fun _ => .ok (rowsResult [.obj [("hash_id", .str "h1")]]),
   fun _ => .ok (.obj [("data", .obj [("x", .int 1)])]),
   fun _ => .ok (mkResult 200 "ok"),
   fun _ => .ok (mkResult 200 "ok"),
   fun _ => .ok (mkResult 200 "ok"),
   fun _ _ _ => .ok (.obj [("task_id", .str "t1")]),
   fun _ _ => .ok [1, 2, 3],
   fun _ => .decodeError,
   fun _ => none,
   fun _ => true,
   fun _ => .ok [7]⟩

/-- Like `envBase`, but the single USB printer entry carries an empty
`hash_id` string. -/
def envEmptyHashId : Env :=
  ⟨.ok (mkResult 200 "ok"),
   fun _ => .ok (rowsResult [.obj [("hash_id", .str "")]]),
   fun _ => .ok (.obj [("data", .obj [("x", .int 1)])]),
   fun _ => .ok (mkResult 200 "ok"),
   fun _ => .ok (mkResult 200 "ok"),
   fun _ => .ok (mkResult 200 "ok"),
   fun _ _ _ => .ok (.obj [("task_id", .str "t1")]),
   fun _ _ => .ok [1, 2, 3],
   fun _ => .decodeError,
   fun _ => none,
   fun _ => true,
   fun _ => .ok [7]⟩

/-- Like `envBase`, but the single USB printer entry has no `hash_id` key. -/
def envNoHashKey : Env :=
  ⟨.ok (mkResult 200 "ok"),
   fun _ => .ok (rowsResult [.obj [("name", .str "p1")]]),
   fun _ => .ok (.obj [("data", .obj [("x", .int 1)])]),
   fun _ => .ok (mkResult 200 "ok"),
   fun _ => .ok (mkResult 200 "ok"),
   fun _ => .ok (mkResult 200 "ok"),
   fun _ _ _ => .ok (.obj [("task_id", .str "t1")]),
   fun _ _ => .ok [1, 2, 3],
   fun _ => .decodeError,
   fun _ => none,
   fun _ => true,
   fun _ => .ok [7]⟩

/-- Like `envBase`, but the USB printer list is empty. -/
def envNoPrinters : Env :=
  ⟨.ok (mkResult 200 "ok"),
   fun _ => .ok (rowsResult []),
   fun _ => .ok (.obj [("data", .obj [("x", .int 1)])]),
   fun _ => .ok (mkResult 200 "ok"),
   fun _ => .ok (mkResult 200 "ok"),
   fun _ => .ok (mkResult 200 "ok"),
   fun _ _ _ => .ok (.obj [("task_id", .str "t1")]),
   fun _ _ => .ok [1, 2, 3],
   fun _ => .decodeError,
   fun _ => none,
   fun _ => true,
   fun _ => .ok [7]⟩

/-- Like `envBase`, but every remote read verb and the submission raise a
`LiankePrintingException` with code 7. -/
def envLianke : Env :=
  ⟨.error (.lianke (some 7) "远程故障"),
   fun _ => .error (.lianke (some 7) "远程故障"),
   fun _ => .error (.lianke (some 7) "远程故障"),
   fun _ => .error (.lianke (some 7) "远程故障"),
   fun _ => .error (.lianke (some 7) "远程故障"),
   fun _ => .error (.lianke (some 7) "远程故障"),
   fun _ _ _ => .error (.lianke (some 7) "远程故障"),
   fun _ _ => .ok [1, 2, 3],
   fun _ => .decodeError,
   fun _ => none,
   fun _ => true,
   fun _ => .ok [7]⟩

/-- Like `envBase`, but the submission raises a `LiankePrintingException`
whose code is zero. -/
def envLiankeZero : Env :=
  ⟨.ok (mkResult 200 "ok"),
   fun _ => .ok (rowsResult [.obj [("hash_id", .str "h1")]]),
   fun _ => .ok (.obj [("data", .obj [("x", .int 1)])]),
   fun _ => .ok (mkResult 200 "ok"),
   fun _ => .ok (mkResult 200 "ok"),
   fun _ => .ok (mkResult 200 "ok"),
   fun _ _ _ => .error (.lianke (some 0) "零码故障"),
   fun _ _ => .ok [1, 2, 3],
   fun _ => .decodeError,
   fun _ => none,
   fun _ => true,
   fun _ => .ok [7]⟩

/-- Like `envBase`, but the document download raises a
`requests.RequestException`. -/
def envFetchFail : Env :=
  ⟨.ok (mkResult 200 "ok"),
   fun _ => .ok (rowsResult [.obj [("hash_id", .str "h1")]]),
   fun _ => .ok (.obj [("data", .obj [("x", .int 1)])]),
   fun _ => .ok (mkResult 200 "ok"),
   fun _ => .ok (mkResult 200 "ok"),
   fun _ => .ok (mkResult 200 "ok"),
   fun _ _ _ => .ok (.obj [("task_id", .str "t1")]),
   fun _ _ => .error (.requestExc "Connection timed out"),
   fun _ => .decodeError,
   fun _ => none,
   fun _ => true,
   fun _ => .ok [7]⟩

/-! ## Claims -/

/-- C2: a call whose request headers carry no `ApiKey` value returns the 400
result naming the missing credential from every one of the eight operations,
and the trace of remote invocations (printer list, document download, job
submission, and the rest) is empty: no network call is issued. -/
theorem C2_missing_apikey (E : Env) (h : Headers) (did dk : Option String)
    (pt : Int) (phash tid url kwargs fp : String) (hs : Option String)
    (ps js o cp col : String) (hA : h.apiKey = none) :
    get_device_info E h did dk = (.ok (mkResult 400 "请求头中缺少 ApiKey"), []) ∧
    get_printer_list E h did dk pt = (.ok (mkResult 400 "请求头中缺少 ApiKey"), []) ∧
    get_printer_params E h phash did dk = (.ok (mkResult 400 "请求头中缺少 ApiKey"), []) ∧
    get_job_status E h tid did dk = (.ok (mkResult 400 "请求头中缺少 ApiKey"), []) ∧
    cancel_print_job E h tid did dk = (.ok (mkResult 400 "请求头中缺少 ApiKey"), []) ∧
    get_printer_status E h phash did dk = (.ok (mkResult 400 "请求头中缺少 ApiKey"), []) ∧
    submit_print_job E h url kwargs did dk hs ps js o cp col =
      (.ok (mkResult 400 "请求头中缺少 ApiKey"), []) ∧
    submit_print_job_with_file E h fp hs kwargs did dk ps js o cp col =
      (.ok (mkResult 400 "请求头中缺少 ApiKey"), []) := by
  refine ⟨?_, ?_, ?_, ?_, ?_, ?_, ?_, ?_⟩ <;>
    simp [get_device_info, get_printer_list, get_printer_list_body,
      get_printer_params, get_printer_params_body, get_job_status, get_job_status_body,
      cancel_print_job, cancel_print_job_body, get_printer_status, get_printer_status_body,
      submit_print_job, submit_print_job_body,
      submit_print_job_with_file, submit_print_job_with_file_body,
      handle, optStrTruthy, hA]

theorem C2_missing_apikey_witness :
    get_device_info envBase hdrNoApi none none = (.ok (mkResult 400 "请求头中缺少 ApiKey"), []) ∧
    get_printer_list envBase hdrNoApi none none 1 = (.ok (mkResult 400 "请求头中缺少 ApiKey"), []) ∧
    get_printer_params envBase hdrNoApi "p" none none = (.ok (mkResult 400 "请求头中缺少 ApiKey"), []) ∧
    get_job_status envBase hdrNoApi "t" none none = (.ok (mkResult 400 "请求头中缺少 ApiKey"), []) ∧
    cancel_print_job envBase hdrNoApi "t" none none = (.ok (mkResult 400 "请求头中缺少 ApiKey"), []) ∧
    get_printer_status envBase hdrNoApi "p" none none = (.ok (mkResult 400 "请求头中缺少 ApiKey"), []) ∧
    submit_print_job envBase hdrNoApi "http://h/a.pdf" "" none none (some "hx") "9" "fit" "1" "1" "1" =
      (.ok (mkResult 400 "请求头中缺少 ApiKey"), []) ∧
    submit_print_job_with_file envBase hdrNoApi "/tmp/a.pdf" (some "hx") "" none none "9" "fit" "1" "1" "1" =
      (.ok (mkResult 400 "请求头中缺少 ApiKey"), []) :=
  C2_missing_apikey envBase hdrNoApi none none 1 "p" "t" "http://h/a.pdf" "" "/tmp/a.pdf"
    (some "hx") "9" "fit" "1" "1" "1" rfl

/-- C1: the seven operations whose bodies sit inside a `try` block return a
result for every environment and every input (no exception passes their
boundary), while `get_device_info`, which has no `try` block, raises the
constructor `ValueError` past its boundary when the `ApiKey` header is
present but the resolved device fields are empty: the claimed property
fails for exactly that operation. -/
theorem C1_operation_boundary :
    (∀ (E : Env) (h : Headers) (did dk : Option String) (pt : Int),
      ∃ v, (get_printer_list E h did dk pt).1 = Except.ok v) ∧
    (∀ (E : Env) (h : Headers) (phash : String) (did dk : Option String),
      ∃ v, (get_printer_params E h phash did dk).1 = Except.ok v) ∧
    (∀ (E : Env) (h : Headers) (tid : String) (did dk : Option String),
      ∃ v, (get_job_status E h tid did dk).1 = Except.ok v) ∧
    (∀ (E : Env) (h : Headers) (tid : String) (did dk : Option String),
      ∃ v, (cancel_print_job E h tid did dk).1 = Except.ok v) ∧
    (∀ (E : Env) (h : Headers) (phash : String) (did dk : Option String),
      ∃ v, (get_printer_status E h phash did dk).1 = Except.ok v) ∧
    (∀ (E : Env) (h : Headers) (url kwargs : String) (did dk hs : Option String)
      (ps js o cp col : String),
      ∃ v, (submit_print_job E h url kwargs did dk hs ps js o cp col).1 = Except.ok v) ∧
    (∀ (E : Env) (h : Headers) (fp : String) (phash : Option String) (kwargs : String)
      (did dk : Option String) (ps js o cp col : String),
      ∃ v, (submit_print_job_with_file E h fp phash kwargs did dk ps js o cp col).1 =
        Except.ok v) ∧
    get_device_info envBase hdrOnlyApi none none =
      (.error (.valueError "API密钥、设备ID和设备密钥不能为空"), []) := by
  refine ⟨?_, ?_, ?_, ?_, ?_, ?_, ?_, rfl⟩ <;> intros <;> exact handle_never_raises _ _

/-- C10: whenever the remote printer-list verb returns a response from whose
`data.row` field a list of printers is extracted, `get_printer_list` returns
the envelope with code 200, msg `success`, and a `total` equal to the length
of that list. -/
theorem C10_printer_list_total (E : Env) (h : Headers) (did dk : Option String)
    (pt : Int) (r : JValue) (xs : List JValue)
    (hA : optStrTruthy h.apiKey = true)
    (hI : optStrTruthy (pyOr h.deviceId did) = true)
    (hK : optStrTruthy (pyOr h.deviceKey dk) = true)
    (hr : E.printer_list pt = .ok r)
    (hrow : extractRow r = .ok (.list xs)) :
    get_printer_list E h did dk pt =
      (.ok (.obj [("code", .int 200), ("msg", .str "success"),
        ("data", .obj [("printers", .list xs), ("total", .int (Int.ofNat xs.length))])]),
       [.printerListCall pt]) := by
  simp [get_printer_list, get_printer_list_body, handle, create_lianke_client,
    hA, hI, hK, hr, hrow, pyLen]

theorem C10_printer_list_total_witness :
    get_printer_list envBase hdrFull none none 1 =
      (.ok (.obj [("code", .int 200), ("msg", .str "success"),
        ("data", .obj [("printers", .list [.obj [("hash_id", .str "h1")]]),
          ("total", .int (Int.ofNat 1))])]),
       [.printerListCall 1]) :=
  C10_printer_list_total envBase hdrFull none none 1
    (rowsResult [.obj [("hash_id", .str "h1")]]) [.obj [("hash_id", .str "h1")]]
    (by decide) (by decide) (by decide) rfl rfl

/-- C7 counterexample: with `ApiKey` present, both device fields empty, and
no printer reference, `submit_print_job` returns 404 `打印未连接` (the
default-printer resolver swallows the credential failure), not the claimed
400 result naming the missing field group. -/
theorem C7_counterexample :
    submit_print_job envBase hdrOnlyApi "http://h/a.pdf" "" none none none
      "9" "fit" "1" "1" "1" = (.ok (mkResult 404 "打印未连接"), []) := rfl

/-- C7 amended: with `ApiKey` present and an empty resolved `device_id` or
`device_key`, the five guarded read operations and a submission carrying an
explicit printer reference return 400 with the credentials message and issue
no network call (`submit_print_job_with_file` does so provided the local
file exists and reads, since it checks the file first); a submission that
must resolve the default printer instead returns 404 `打印未连接`, still
with no network call; and `get_device_info` raises the `ValueError` rather
than returning a result. -/
theorem C7_missing_credentials (E : Env) (h : Headers) (did dk : Option String)
    (pt : Int) (phash tid url kwargs fp hs ps js o cp col : String)
    (hA : optStrTruthy h.apiKey = true)
    (hbad : optStrTruthy (pyOr h.deviceId did) = false ∨
      optStrTruthy (pyOr h.deviceKey dk) = false)
    (hhs : hs ≠ "") :
    get_printer_list E h did dk pt =
      (.ok (mkResult 400 "API密钥、设备ID和设备密钥不能为空"), []) ∧
    get_printer_params E h phash did dk =
      (.ok (mkResult 400 "API密钥、设备ID和设备密钥不能为空"), []) ∧
    get_job_status E h tid did dk =
      (.ok (mkResult 400 "API密钥、设备ID和设备密钥不能为空"), []) ∧
    cancel_print_job E h tid did dk =
      (.ok (mkResult 400 "API密钥、设备ID和设备密钥不能为空"), []) ∧
    get_printer_status E h phash did dk =
      (.ok (mkResult 400 "API密钥、设备ID和设备密钥不能为空"), []) ∧
    submit_print_job E h url kwargs did dk (some hs) ps js o cp col =
      (.ok (mkResult 400 "API密钥、设备ID和设备密钥不能为空"), []) ∧
    submit_print_job E h url kwargs did dk none ps js o cp col =
      (.ok (mkResult 404 "打印未连接"), []) ∧
    (∀ bytes : Bytes, E.path_exists fp = true → E.read_file fp = .ok bytes →
      submit_print_job_with_file E h fp (some hs) kwargs did dk ps js o cp col =
        (.ok (mkResult 400 "API密钥、设备ID和设备密钥不能为空"), [])) ∧
    submit_print_job_with_file E h fp none kwargs did dk ps js o cp col =
      (.ok (mkResult 404 "打印未连接"), []) ∧
    get_device_info E h did dk =
      (.error (.valueError "API密钥、设备ID和设备密钥不能为空"), []) := by
  have hhs' : (hs != "") = true := by simpa using hhs
  have hcc : create_lianke_client h.apiKey (pyOr h.deviceId did) (pyOr h.deviceKey dk) =
      .error (.valueError "API密钥、设备ID和设备密钥不能为空") := by
    rcases hbad with hb | hb <;> simp [create_lianke_client, hb]
  refine ⟨?_, ?_, ?_, ?_, ?_, ?_, ?_, ?_, ?_, ?_⟩
  · simp [get_printer_list, get_printer_list_body, handle, hA, hcc]
  · simp [get_printer_params, get_printer_params_body, handle, hA, hcc]
  · simp [get_job_status, get_job_status_body, handle, hA, hcc]
  · simp [cancel_print_job, cancel_print_job_body, handle, hA, hcc]
  · simp [get_printer_status, get_printer_status_body, handle, hA, hcc]
  · simp [submit_print_job, submit_print_job_body, handle, hA, hcc,
      hashOfArg, JValue.truthy, hhs']
  · simp [submit_print_job, submit_print_job_body, handle, hA, hcc,
      hashOfArg, JValue.truthy, get_default_printer]
  · intro bytes hfe hrd
    simp [submit_print_job_with_file, submit_print_job_with_file_body, handle, hA, hcc,
      hashOfArg, JValue.truthy, hhs', hfe, hrd]
  · simp [submit_print_job_with_file, submit_print_job_with_file_body, handle, hA, hcc,
      hashOfArg, JValue.truthy, get_default_printer]
  · simp [get_device_info, hA, hcc]

theorem C7_missing_credentials_witness :
    get_printer_list envBase hdrOnlyApi none none 1 =
      (.ok (mkResult 400 "API密钥、设备ID和设备密钥不能为空"), []) ∧
    get_printer_params envBase hdrOnlyApi "p" none none =
      (.ok (mkResult 400 "API密钥、设备ID和设备密钥不能为空"), []) ∧
    get_job_status envBase hdrOnlyApi "t" none none =
      (.ok (mkResult 400 "API密钥、设备ID和设备密钥不能为空"), []) ∧
    cancel_print_job envBase hdrOnlyApi "t" none none =
      (.ok (mkResult 400 "API密钥、设备ID和设备密钥不能为空"), []) ∧
    get_printer_status envBase hdrOnlyApi "p" none none =
      (.ok (mkResult 400 "API密钥、设备ID和设备密钥不能为空"), []) ∧
    submit_print_job envBase hdrOnlyApi "u" "" none none (some "hx") "9" "fit" "1" "1" "1" =
      (.ok (mkResult 400 "API密钥、设备ID和设备密钥不能为空"), []) ∧
    submit_print_job envBase hdrOnlyApi "u" "" none none none "9" "fit" "1" "1" "1" =
      (.ok (mkResult 404 "打印未连接"), []) ∧
    (∀ bytes : Bytes, envBase.path_exists "/tmp/a.pdf" = true →
      envBase.read_file "/tmp/a.pdf" = .ok bytes →
      submit_print_job_with_file envBase hdrOnlyApi "/tmp/a.pdf" (some "hx") "" none none
        "9" "fit" "1" "1" "1" =
        (.ok (mkResult 400 "API密钥、设备ID和设备密钥不能为空"), [])) ∧
    submit_print_job_with_file envBase hdrOnlyApi "/tmp/a.pdf" none "" none none
      "9" "fit" "1" "1" "1" = (.ok (mkResult 404 "打印未连接"), []) ∧
    get_device_info envBase hdrOnlyApi none none =
      (.error (.valueError "API密钥、设备ID和设备密钥不能为空"), []) :=
  C7_missing_credentials envBase hdrOnlyApi none none 1 "p" "t" "u" "" "/tmp/a.pdf" "hx"
    "9" "fit" "1" "1" "1" (by decide) (Or.inl (by decide)) (by decide)

/-- C3 counterexample: the remote USB printer list is non-empty (one entry,
whose `hash_id` is the empty string), yet the submission does not use that
entry: it returns 404 `打印未连接` after the single printer-list call, with
no document fetch and no job submission. -/
theorem C3_counterexample :
    envEmptyHashId.printer_list 1 = .ok (rowsResult [.obj [("hash_id", .str "")]]) ∧
    submit_print_job envEmptyHashId hdrFull "http://h/a.pdf" "" none none none
      "9" "fit" "1" "1" "1" = (.ok (mkResult 404 "打印未连接"), [.printerListCall 1]) :=
  ⟨rfl, rfl⟩

/-- C3 amended: on a submission with no printer reference — in either
acquisition mode — when the USB printer list is non-empty and its first
entry carries a truthy `hash_id`, the submission uses that identifier (the
job-submission call in the trace carries it), and the document is acquired
only after the list call; when the list is empty, or the first entry lacks
the `hash_id` key (a `KeyError` swallowed to `None`), or that `hash_id` is
falsy, both submission operations return 404 after the single printer-list
call, with no fetch and no submission. In the local-file 404 conjuncts no
hypothesis constrains `path_exists` or `read_file`, so the 404 result is
independent of the filesystem: no local read influences it. -/
theorem C3_default_printer_resolution :
    (∀ (E : Env) (h : Headers) (url kwargs : String) (did dk : Option String)
      (ps js o cp col : String) (r p hv : JValue) (rest : List JValue)
      (base jp : List (String × JValue)) (content : Bytes),
      optStrTruthy h.apiKey = true →
      optStrTruthy (pyOr h.deviceId did) = true →
      optStrTruthy (pyOr h.deviceKey dk) = true →
      E.printer_list 1 = .ok r →
      extractRow r = .ok (.list (p :: rest)) →
      jGetItem p "hash_id" = .ok hv →
      hv.truthy = true →
      buildBaseParams ps js o cp col = .ok base →
      mergeKwargs E.json_loads base kwargs = .ok jp →
      E.fetch url 30 = .ok content →
      (submit_print_job E h url kwargs did dk none ps js o cp col).2 =
        [.printerListCall 1, .fetchCall url 30,
         .addJobCall [("jobFile", filenameFromUrl url, content,
           resolveMimeUrl E.guess_type url)] hv jp]) ∧
    (∀ (E : Env) (h : Headers) (url kwargs : String) (did dk : Option String)
      (ps js o cp col : String) (r : JValue),
      optStrTruthy h.apiKey = true →
      optStrTruthy (pyOr h.deviceId did) = true →
      optStrTruthy (pyOr h.deviceKey dk) = true →
      E.printer_list 1 = .ok r →
      extractRow r = .ok (.list []) →
      submit_print_job E h url kwargs did dk none ps js o cp col =
        (.ok (mkResult 404 "打印未连接"), [.printerListCall 1])) ∧
    (∀ (E : Env) (h : Headers) (url kwargs : String) (did dk : Option String)
      (ps js o cp col : String) (r p hv : JValue) (rest : List JValue),
      optStrTruthy h.apiKey = true →
      optStrTruthy (pyOr h.deviceId did) = true →
      optStrTruthy (pyOr h.deviceKey dk) = true →
      E.printer_list 1 = .ok r →
      extractRow r = .ok (.list (p :: rest)) →
      jGetItem p "hash_id" = .ok hv →
      hv.truthy = false →
      submit_print_job E h url kwargs did dk none ps js o cp col =
        (.ok (mkResult 404 "打印未连接"), [.printerListCall 1])) ∧
    (∀ (E : Env) (h : Headers) (url kwargs : String) (did dk : Option String)
      (ps js o cp col : String) (r p : JValue) (rest : List JValue) (e : PyExc),
      optStrTruthy h.apiKey = true →
      optStrTruthy (pyOr h.deviceId did) = true →
      optStrTruthy (pyOr h.deviceKey dk) = true →
      E.printer_list 1 = .ok r →
      extractRow r = .ok (.list (p :: rest)) →
      jGetItem p "hash_id" = .error e →
      submit_print_job E h url kwargs did dk none ps js o cp col =
        (.ok (mkResult 404 "打印未连接"), [.printerListCall 1])) ∧
    (∀ (E : Env) (h : Headers) (fp kwargs : String) (did dk : Option String)
      (ps js o cp col : String) (r p hv : JValue) (rest : List JValue)
      (base jp : List (String × JValue)) (bytes : Bytes),
      optStrTruthy h.apiKey = true →
      optStrTruthy (pyOr h.deviceId did) = true →
      optStrTruthy (pyOr h.deviceKey dk) = true →
      E.printer_list 1 = .ok r →
      extractRow r = .ok (.list (p :: rest)) →
      jGetItem p "hash_id" = .ok hv →
      hv.truthy = true →
      E.path_exists fp = true →
      E.read_file fp = .ok bytes →
      buildBaseParams ps js o cp col = .ok base →
      mergeKwargs E.json_loads base kwargs = .ok jp →
      (submit_print_job_with_file E h fp none kwargs did dk ps js o cp col).2 =
        [.printerListCall 1,
         .addJobCall [("jobFile", basename fp, bytes,
           resolveMimeFile E.guess_type fp (basename fp))] hv jp]) ∧
    (∀ (E : Env) (h : Headers) (fp kwargs : String) (did dk : Option String)
      (ps js o cp col : String) (r : JValue),
      optStrTruthy h.apiKey = true →
      optStrTruthy (pyOr h.deviceId did) = true →
      optStrTruthy (pyOr h.deviceKey dk) = true →
      E.printer_list 1 = .ok r →
      extractRow r = .ok (.list []) →
      submit_print_job_with_file E h fp none kwargs did dk ps js o cp col =
        (.ok (mkResult 404 "打印未连接"), [.printerListCall 1])) ∧
    (∀ (E : Env) (h : Headers) (fp kwargs : String) (did dk : Option String)
      (ps js o cp col : String) (r p hv : JValue) (rest : List JValue),
      optStrTruthy h.apiKey = true →
      optStrTruthy (pyOr h.deviceId did) = true →
      optStrTruthy (pyOr h.deviceKey dk) = true →
      E.printer_list 1 = .ok r →
      extractRow r = .ok (.list (p :: rest)) →
      jGetItem p "hash_id" = .ok hv →
      hv.truthy = false →
      submit_print_job_with_file E h fp none kwargs did dk ps js o cp col =
        (.ok (mkResult 404 "打印未连接"), [.printerListCall 1])) ∧
    (∀ (E : Env) (h : Headers) (fp kwargs : String) (did dk : Option String)
      (ps js o cp col : String) (r p : JValue) (rest : List JValue) (e : PyExc),
      optStrTruthy h.apiKey = true →
      optStrTruthy (pyOr h.deviceId did) = true →
      optStrTruthy (pyOr h.deviceKey dk) = true →
      E.printer_list 1 = .ok r →
      extractRow r = .ok (.list (p :: rest)) →
      jGetItem p "hash_id" = .error e →
      submit_print_job_with_file E h fp none kwargs did dk ps js o cp col =
        (.ok (mkResult 404 "打印未连接"), [.printerListCall 1])) := by
  refine ⟨?_, ?_, ?_, ?_, ?_, ?_, ?_, ?_⟩
  · intro E h url kwargs did dk ps js o cp col r p hv rest base jp content
      hA hI hK hr hrow hhash hvt hbp hmk hf
    simp only [submit_print_job]
    rw [handle_snd]
    simp [submit_print_job_body, hashOfArg_none, truthy_null, truthy_list,
      get_default_printer, create_lianke_client, hA, hI, hK, hr, hrow,
      hhash, hvt, hbp, hmk, hf, jFirst]
    rcases hE : E.add_job [("jobFile", filenameFromUrl url, content,
        resolveMimeUrl E.guess_type url)] hv jp with e | v
    · cases e <;> simp [hE]
    · simp [hE]
  · intro E h url kwargs did dk ps js o cp col r hA hI hK hr hrow
    simp [submit_print_job, submit_print_job_body, handle, hashOfArg_none, truthy_null,
      truthy_list, get_default_printer, create_lianke_client, hA, hI, hK, hr, hrow]
  · intro E h url kwargs did dk ps js o cp col r p hv rest hA hI hK hr hrow hhash hvt
    simp [submit_print_job, submit_print_job_body, handle, hashOfArg_none, truthy_null,
      truthy_list, get_default_printer, create_lianke_client, hA, hI, hK, hr, hrow,
      hhash, hvt, jFirst]
  · intro E h url kwargs did dk ps js o cp col r p rest e hA hI hK hr hrow hhash
    simp [submit_print_job, submit_print_job_body, handle, hashOfArg_none, truthy_null,
      truthy_list, get_default_printer, create_lianke_client, hA, hI, hK, hr, hrow,
      hhash, jFirst]
  · intro E h fp kwargs did dk ps js o cp col r p hv rest base jp bytes
      hA hI hK hr hrow hhash hvt hfe hrd hbp hmk
    simp only [submit_print_job_with_file]
    rw [handle_snd]
    simp [submit_print_job_with_file_body, hashOfArg_none, truthy_null, truthy_list,
      get_default_printer, create_lianke_client, hA, hI, hK, hr, hrow,
      hhash, hvt, hfe, hrd, hbp, hmk, jFirst]
    rcases hE : E.add_job [("jobFile", basename fp, bytes,
        resolveMimeFile E.guess_type fp (basename fp))] hv jp with e | v
    · cases e <;> simp [hE]
    · simp [hE]
  · intro E h fp kwargs did dk ps js o cp col r hA hI hK hr hrow
    simp [submit_print_job_with_file, submit_print_job_with_file_body, handle,
      hashOfArg_none, truthy_null, truthy_list, get_default_printer,
      create_lianke_client, hA, hI, hK, hr, hrow]
  · intro E h fp kwargs did dk ps js o cp col r p hv rest hA hI hK hr hrow hhash hvt
    simp [submit_print_job_with_file, submit_print_job_with_file_body, handle,
      hashOfArg_none, truthy_null, truthy_list, get_default_printer,
      create_lianke_client, hA, hI, hK, hr, hrow, hhash, hvt, jFirst]
  · intro E h fp kwargs did dk ps js o cp col r p rest e hA hI hK hr hrow hhash
    simp [submit_print_job_with_file, submit_print_job_with_file_body, handle,
      hashOfArg_none, truthy_null, truthy_list, get_default_printer,
      create_lianke_client, hA, hI, hK, hr, hrow, hhash, jFirst]

theorem C3_default_printer_resolution_witness :
    (submit_print_job envBase hdrFull "http://h/a.pdf" "" none none none
        "9" "fit" "1" "1" "1").2 =
      [.printerListCall 1, .fetchCall "http://h/a.pdf" 30,
       .addJobCall [("jobFile", filenameFromUrl "http://h/a.pdf", [1, 2, 3],
         resolveMimeUrl envBase.guess_type "http://h/a.pdf")] (.str "h1") paramsDefault] ∧
    submit_print_job envNoPrinters hdrFull "http://h/a.pdf" "" none none none
      "9" "fit" "1" "1" "1" = (.ok (mkResult 404 "打印未连接"), [.printerListCall 1]) ∧
    submit_print_job envEmptyHashId hdrFull "http://h/a.pdf" "" none none none
      "9" "fit" "1" "1" "1" = (.ok (mkResult 404 "打印未连接"), [.printerListCall 1]) ∧
    submit_print_job envNoHashKey hdrFull "http://h/a.pdf" "" none none none
      "9" "fit" "1" "1" "1" = (.ok (mkResult 404 "打印未连接"), [.printerListCall 1]) ∧
    (submit_print_job_with_file envBase hdrFull "/tmp/a.pdf" none "" none none
        "9" "fit" "1" "1" "1").2 =
      [.printerListCall 1,
       .addJobCall [("jobFile", basename "/tmp/a.pdf", [7],
         resolveMimeFile envBase.guess_type "/tmp/a.pdf" (basename "/tmp/a.pdf"))]
         (.str "h1") paramsDefault] ∧
    submit_print_job_with_file envNoPrinters hdrFull "/tmp/a.pdf" none "" none none
      "9" "fit" "1" "1" "1" = (.ok (mkResult 404 "打印未连接"), [.printerListCall 1]) ∧
    submit_print_job_with_file envEmptyHashId hdrFull "/tmp/a.pdf" none "" none none
      "9" "fit" "1" "1" "1" = (.ok (mkResult 404 "打印未连接"), [.printerListCall 1]) ∧
    submit_print_job_with_file envNoHashKey hdrFull "/tmp/a.pdf" none "" none none
      "9" "fit" "1" "1" "1" = (.ok (mkResult 404 "打印未连接"), [.printerListCall 1]) :=
  ⟨C3_default_printer_resolution.1 envBase hdrFull "http://h/a.pdf" "" none none
      "9" "fit" "1" "1" "1" (rowsResult [.obj [("hash_id", .str "h1")]])
      (.obj [("hash_id", .str "h1")]) (.str "h1") [] paramsDefault paramsDefault [1, 2, 3]
      (by decide) (by decide) (by decide) rfl rfl rfl (by decide) rfl rfl rfl,
   C3_default_printer_resolution.2.1 envNoPrinters hdrFull "http://h/a.pdf" "" none none
      "9" "fit" "1" "1" "1" (rowsResult [])
      (by decide) (by decide) (by decide) rfl rfl,
   C3_default_printer_resolution.2.2.1 envEmptyHashId hdrFull "http://h/a.pdf" "" none none
      "9" "fit" "1" "1" "1" (rowsResult [.obj [("hash_id", .str "")]])
      (.obj [("hash_id", .str "")]) (.str "") []
      (by decide) (by decide) (by decide) rfl rfl rfl (by decide),
   C3_default_printer_resolution.2.2.2.1 envNoHashKey hdrFull "http://h/a.pdf" "" none none
      "9" "fit" "1" "1" "1" (rowsResult [.obj [("name", .str "p1")]])
      (.obj [("name", .str "p1")]) [] (.other ("KeyError: " ++ "hash_id"))
      (by decide) (by decide) (by decide) rfl rfl rfl,
   C3_default_printer_resolution.2.2.2.2.1 envBase hdrFull "/tmp/a.pdf" "" none none
      "9" "fit" "1" "1" "1" (rowsResult [.obj [("hash_id", .str "h1")]])
      (.obj [("hash_id", .str "h1")]) (.str "h1") [] paramsDefault paramsDefault [7]
      (by decide) (by decide) (by decide) rfl rfl rfl (by decide) rfl rfl rfl rfl,
   C3_default_printer_resolution.2.2.2.2.2.1 envNoPrinters hdrFull "/tmp/a.pdf" "" none none
      "9" "fit" "1" "1" "1" (rowsResult [])
      (by decide) (by decide) (by decide) rfl rfl,
   C3_default_printer_resolution.2.2.2.2.2.2.1 envEmptyHashId hdrFull "/tmp/a.pdf" "" none
      none "9" "fit" "1" "1" "1" (rowsResult [.obj [("hash_id", .str "")]])
      (.obj [("hash_id", .str "")]) (.str "") []
      (by decide) (by decide) (by decide) rfl rfl rfl (by decide),
   C3_default_printer_resolution.2.2.2.2.2.2.2 envNoHashKey hdrFull "/tmp/a.pdf" "" none
      none "9" "fit" "1" "1" "1" (rowsResult [.obj [("name", .str "p1")]])
      (.obj [("name", .str "p1")]) [] (.other ("KeyError: " ++ "hash_id"))
      (by decide) (by decide) (by decide) rfl rfl rfl⟩

/-- C5: the four numeric options pass through `int()` before submission: the
default texts `9`, `1`, `1`, `1` produce the integer fields 9, 1, 1, 1 (and
an empty overrides payload leaves them untouched); a text that is not a
valid integer makes the parameter construction raise `ValueError`, and the
submission then returns 400 with that message, issuing no remote call at
all (in particular no job submission). -/
theorem C5_numeric_options :
    (∀ js : String, buildBaseParams "9" js "1" "1" "1" =
      .ok [("dmPaperSize", .int 9), ("jpScale", .str js), ("dmOrientation", .int 1),
           ("dmCopies", .int 1), ("dmColor", .int 1)]) ∧
    (∀ (jl : String → JsonOutcome) (base : List (String × JValue)),
      mergeKwargs jl base "" = .ok base) ∧
    (∀ s js o cp col : String, pyParseInt s = none →
      buildBaseParams s js o cp col =
        .error (.valueError ("invalid literal for int() with base 10: " ++ s))) ∧
    (∀ (E : Env) (h : Headers) (url kwargs : String) (did dk : Option String)
      (hs ps js o cp col m : String),
      optStrTruthy h.apiKey = true →
      optStrTruthy (pyOr h.deviceId did) = true →
      optStrTruthy (pyOr h.deviceKey dk) = true →
      hs ≠ "" →
      buildBaseParams ps js o cp col = .error (.valueError m) →
      submit_print_job E h url kwargs did dk (some hs) ps js o cp col =
        (.ok (mkResult 400 m), [])) := by
  refine ⟨?_, ?_, ?_, ?_⟩
  · intro js
    rfl
  · intro jl base
    rfl
  · intro s js o cp col hp
    simp [buildBaseParams, pyInt, hp]
  · intro E h url kwargs did dk hs ps js o cp col m hA hI hK hhs hbp
    have hhs' : (hs != "") = true := by simpa using hhs
    simp [submit_print_job, submit_print_job_body, handle, hashOfArg_some, truthy_str,
      create_lianke_client, hA, hI, hK, hhs', hbp]

theorem C5_numeric_options_witness :
    buildBaseParams "9" "fit" "1" "1" "1" =
      .ok [("dmPaperSize", .int 9), ("jpScale", .str "fit"), ("dmOrientation", .int 1),
           ("dmCopies", .int 1), ("dmColor", .int 1)] ∧
    mergeKwargs envBase.json_loads paramsDefault "" = .ok paramsDefault ∧
    buildBaseParams "abc" "fit" "1" "1" "1" =
      .error (.valueError ("invalid literal for int() with base 10: " ++ "abc")) ∧
    submit_print_job envBase hdrFull "u" "" none none (some "hx") "abc" "fit" "1" "1" "1" =
      (.ok (mkResult 400 ("invalid literal for int() with base 10: " ++ "abc")), []) :=
  ⟨C5_numeric_options.1 "fit",
   C5_numeric_options.2.1 envBase.json_loads paramsDefault,
   C5_numeric_options.2.2.1 "abc" "fit" "1" "1" "1" rfl,
   C5_numeric_options.2.2.2 envBase hdrFull "u" "" none none "hx" "abc" "fit" "1" "1" "1"
     ("invalid literal for int() with base 10: " ++ "abc")
     (by decide) (by decide) (by decide) (by decide) rfl⟩

/-- C8: a document download that raises `requests.RequestException` (which
covers timeouts, connection failures, and the non-2xx statuses surfaced by
`raise_for_status`) makes the submission return 400 with the underlying
message appended to `下载文件失败: `, after exactly one fetch issued with
the fixed timeout 30 and with no job submission afterwards (so no document
payload reaches the remote service); on a successful fetch the trace again
holds exactly one fetch with timeout 30 followed by the submission. -/
theorem C8_fetch_failure :
    (∀ (E : Env) (h : Headers) (url kwargs : String) (did dk : Option String)
      (hs ps js o cp col m : String) (base jp : List (String × JValue)),
      optStrTruthy h.apiKey = true →
      optStrTruthy (pyOr h.deviceId did) = true →
      optStrTruthy (pyOr h.deviceKey dk) = true →
      hs ≠ "" →
      buildBaseParams ps js o cp col = .ok base →
      mergeKwargs E.json_loads base kwargs = .ok jp →
      E.fetch url 30 = .error (.requestExc m) →
      submit_print_job E h url kwargs did dk (some hs) ps js o cp col =
        (.ok (mkResult 400 ("下载文件失败: " ++ m)), [.fetchCall url 30])) ∧
    (∀ (E : Env) (h : Headers) (url kwargs : String) (did dk : Option String)
      (hs ps js o cp col : String) (base jp : List (String × JValue)) (content : Bytes),
      optStrTruthy h.apiKey = true →
      optStrTruthy (pyOr h.deviceId did) = true →
      optStrTruthy (pyOr h.deviceKey dk) = true →
      hs ≠ "" →
      buildBaseParams ps js o cp col = .ok base →
      mergeKwargs E.json_loads base kwargs = .ok jp →
      E.fetch url 30 = .ok content →
      (submit_print_job E h url kwargs did dk (some hs) ps js o cp col).2 =
        [.fetchCall url 30,
         .addJobCall [("jobFile", filenameFromUrl url, content,
           resolveMimeUrl E.guess_type url)] (.str hs) jp]) := by
  refine ⟨?_, ?_⟩
  · intro E h url kwargs did dk hs ps js o cp col m base jp hA hI hK hhs hbp hmk hf
    have hhs' : (hs != "") = true := by simpa using hhs
    simp [submit_print_job, submit_print_job_body, handle, hashOfArg_some, truthy_str,
      create_lianke_client, hA, hI, hK, hhs', hbp, hmk, hf]
  · intro E h url kwargs did dk hs ps js o cp col base jp content hA hI hK hhs hbp hmk hf
    have hhs' : (hs != "") = true := by simpa using hhs
    simp only [submit_print_job]
    rw [handle_snd]
    simp [submit_print_job_body, hashOfArg_some, truthy_str, create_lianke_client,
      hA, hI, hK, hhs', hbp, hmk, hf]
    rcases hE : E.add_job [("jobFile", filenameFromUrl url, content,
        resolveMimeUrl E.guess_type url)] (.str hs) jp with e | v
    · cases e <;> simp [hE]
    · simp [hE]

theorem C8_fetch_failure_witness :
    submit_print_job envFetchFail hdrFull "http://h/a.pdf" "" none none (some "hx")
      "9" "fit" "1" "1" "1" =
      (.ok (mkResult 400 ("下载文件失败: " ++ "Connection timed out")),
       [.fetchCall "http://h/a.pdf" 30]) ∧
    (submit_print_job envBase hdrFull "http://h/a.pdf" "" none none (some "hx")
        "9" "fit" "1" "1" "1").2 =
      [.fetchCall "http://h/a.pdf" 30,
       .addJobCall [("jobFile", filenameFromUrl "http://h/a.pdf", [1, 2, 3],
         resolveMimeUrl envBase.guess_type "http://h/a.pdf")] (.str "hx") paramsDefault] :=
  ⟨C8_fetch_failure.1 envFetchFail hdrFull "http://h/a.pdf" "" none none "hx"
      "9" "fit" "1" "1" "1" "Connection timed out" paramsDefault paramsDefault
      (by decide) (by decide) (by decide) (by decide) rfl rfl rfl,
   C8_fetch_failure.2 envBase hdrFull "http://h/a.pdf" "" none none "hx"
      "9" "fit" "1" "1" "1" paramsDefault paramsDefault [1, 2, 3]
      (by decide) (by decide) (by decide) (by decide) rfl rfl rfl⟩

/-- C6 counterexample: in the URL submission mode, with standard inference
yielding nothing for `http://h/a.docx`, the attached MIME type is the
generic binary type even though the fixed extension table maps `.docx` to
the Word MIME type: the table tier of the claimed three-step fallback is
absent from the URL mode. -/
theorem C6_counterexample :
    envBase.guess_type "http://h/a.docx" = none ∧
    lookupStr mimetype_map ".docx" =
      some "application/vnd.openxmlformats-officedocument.wordprocessingml.document" ∧
    (submit_print_job envBase hdrFull "http://h/a.docx" "" none none (some "hx")
        "9" "fit" "1" "1" "1").2 =
      [.fetchCall "http://h/a.docx" 30,
       .addJobCall [("jobFile", "a.docx", [1, 2, 3], "application/octet-stream")]
         (.str "hx") paramsDefault] :=
  ⟨rfl, rfl, by rfl⟩

/-- C6 amended: the URL mode resolves the MIME type by standard inference
and falls back directly to the generic binary type (no table tier), while
the local-file mode tries standard inference, then the fixed extension
table on the lower-cased extension, then the generic binary type; in both
modes the resolved type is non-empty whenever standard inference never
yields an empty string. -/
theorem C6_mime_resolution :
    (∀ (g : String → Option String) (url : String),
      g url = none → resolveMimeUrl g url = "application/octet-stream") ∧
    (∀ (g : String → Option String) (url : String),
      g url = some "" → resolveMimeUrl g url = "application/octet-stream") ∧
    (∀ (g : String → Option String) (url m : String),
      g url = some m → m ≠ "" → resolveMimeUrl g url = m) ∧
    (∀ (g : String → Option String) (url : String),
      (∀ m, g url = some m → m ≠ "") → resolveMimeUrl g url ≠ "") ∧
    (∀ (g : String → Option String) (p fn m : String),
      g p = some m → m ≠ "" → resolveMimeFile g p fn = m) ∧
    (∀ (g : String → Option String) (p fn : String),
      g p = none →
      resolveMimeFile g p fn =
        (lookupStr mimetype_map (pyLower (splitextExt fn))).getD "application/octet-stream") ∧
    (∀ (g : String → Option String) (p fn : String),
      (∀ m, g p = some m → m ≠ "") → resolveMimeFile g p fn ≠ "") := by
  have tableOk : ∀ q ∈ mimetype_map, q.2 ≠ "" := by decide
  have octOk : ("application/octet-stream" : String) ≠ "" := by decide
  refine ⟨?_, ?_, ?_, ?_, ?_, ?_, ?_⟩
  · intro g url hg
    simp [resolveMimeUrl, optStrTruthy, hg]
  · intro g url hg
    simp [resolveMimeUrl, optStrTruthy, hg]
  · intro g url m hg hm
    have hm' : (m != "") = true := by simpa using hm
    simp [resolveMimeUrl, optStrTruthy, hg, hm']
  · intro g url hg
    rcases hgu : g url with _ | m
    · have : resolveMimeUrl g url = "application/octet-stream" := by
        simp [resolveMimeUrl, optStrTruthy, hgu]
      rw [this]
      exact octOk
    · by_cases hm : m = ""
      · subst hm
        have : resolveMimeUrl g url = "application/octet-stream" := by
          simp [resolveMimeUrl, optStrTruthy, hgu]
        rw [this]
        exact octOk
      · have hm' : (m != "") = true := by simpa using hm
        have : resolveMimeUrl g url = m := by
          simp [resolveMimeUrl, optStrTruthy, hgu, hm']
        rw [this]
        exact hm
  · intro g p fn m hg hm
    have hm' : (m != "") = true := by simpa using hm
    simp [resolveMimeFile, optStrTruthy, hg, hm']
  · intro g p fn hg
    simp [resolveMimeFile, optStrTruthy, hg]
  · intro g p fn hg
    rcases hgp : g p with _ | m
    · have : resolveMimeFile g p fn =
          (lookupStr mimetype_map (pyLower (splitextExt fn))).getD "application/octet-stream" := by
        simp [resolveMimeFile, optStrTruthy, hgp]
      rw [this]
      exact lookupStr_getD_ne_empty mimetype_map _ _ tableOk octOk
    · by_cases hm : m = ""
      · subst hm
        have : resolveMimeFile g p fn =
            (lookupStr mimetype_map (pyLower (splitextExt fn))).getD "application/octet-stream" := by
          simp [resolveMimeFile, optStrTruthy, hgp]
        rw [this]
        exact lookupStr_getD_ne_empty mimetype_map _ _ tableOk octOk
      · have hm' : (m != "") = true := by simpa using hm
        have : resolveMimeFile g p fn = m := by
          simp [resolveMimeFile, optStrTruthy, hgp, hm']
        rw [this]
        exact hm

theorem C6_mime_resolution_witness :
    resolveMimeUrl (fun _ => none) "http://h/a.docx" = "application/octet-stream" ∧
    resolveMimeUrl (fun _ => some "") "http://h/a.docx" = "application/octet-stream" ∧
    resolveMimeUrl (fun _ => some "application/pdf") "http://h/a.pdf" = "application/pdf" ∧
    resolveMimeUrl (fun _ => none) "http://h/a.xyz" ≠ "" ∧
    resolveMimeFile (fun _ => some "application/pdf") "/p/a.pdf" "a.pdf" = "application/pdf" ∧
    resolveMimeFile (fun _ => none) "/p/a.docx" "a.docx" =
      (lookupStr mimetype_map (pyLower (splitextExt "a.docx"))).getD "application/octet-stream" ∧
    resolveMimeFile (fun _ => none) "/p/a.xyz" "a.xyz" ≠ "" :=
  ⟨C6_mime_resolution.1 (fun _ => none) "http://h/a.docx" rfl,
   C6_mime_resolution.2.1 (fun _ => some "") "http://h/a.docx" rfl,
   C6_mime_resolution.2.2.1 (fun _ => some "application/pdf") "http://h/a.pdf"
     "application/pdf" rfl (by decide),
   C6_mime_resolution.2.2.2.1 (fun _ => none) "http://h/a.xyz" (fun m hm => nomatch hm),
   C6_mime_resolution.2.2.2.2.1 (fun _ => some "application/pdf") "/p/a.pdf" "a.pdf"
     "application/pdf" rfl (by decide),
   C6_mime_resolution.2.2.2.2.2.1 (fun _ => none) "/p/a.docx" "a.docx" rfl,
   C6_mime_resolution.2.2.2.2.2.2 (fun _ => none) "/p/a.xyz" "a.xyz" (fun m hm => nomatch hm)⟩

/-- C9: in every operation that catches remote faults (all but
`get_device_info`), a `LiankePrintingException` is mapped to a result whose
code is the reported code when that code is nonzero and 503 when it is
absent or zero, with the message passed through verbatim;
`get_device_info`, which has no handler, instead lets the exception escape,
so the claimed mapping fails for that one operation. -/
theorem C9_remote_fault_mapping :
    liankeOr503 none = 503 ∧
    liankeOr503 (some 0) = 503 ∧
    (∀ k : Int, k ≠ 0 → liankeOr503 (some k) = k) ∧
    (∀ (E : Env) (h : Headers) (did dk : Option String) (pt : Int)
      (c : Option Int) (m : String),
      optStrTruthy h.apiKey = true →
      optStrTruthy (pyOr h.deviceId did) = true →
      optStrTruthy (pyOr h.deviceKey dk) = true →
      E.printer_list pt = .error (.lianke c m) →
      get_printer_list E h did dk pt =
        (.ok (mkResult (liankeOr503 c) m), [.printerListCall pt])) ∧
    (∀ (E : Env) (h : Headers) (phash : String) (did dk : Option String)
      (c : Option Int) (m : String),
      optStrTruthy h.apiKey = true →
      optStrTruthy (pyOr h.deviceId did) = true →
      optStrTruthy (pyOr h.deviceKey dk) = true →
      E.printer_params phash = .error (.lianke c m) →
      get_printer_params E h phash did dk =
        (.ok (mkResult (liankeOr503 c) m), [.printerParamsCall phash])) ∧
    (∀ (E : Env) (h : Headers) (tid : String) (did dk : Option String)
      (c : Option Int) (m : String),
      optStrTruthy h.apiKey = true →
      optStrTruthy (pyOr h.deviceId did) = true →
      optStrTruthy (pyOr h.deviceKey dk) = true →
      E.job_result tid = .error (.lianke c m) →
      get_job_status E h tid did dk =
        (.ok (mkResult (liankeOr503 c) m), [.jobResultCall tid])) ∧
    (∀ (E : Env) (h : Headers) (tid : String) (did dk : Option String)
      (c : Option Int) (m : String),
      optStrTruthy h.apiKey = true →
      optStrTruthy (pyOr h.deviceId did) = true →
      optStrTruthy (pyOr h.deviceKey dk) = true →
      E.cancel_job tid = .error (.lianke c m) →
      cancel_print_job E h tid did dk =
        (.ok (mkResult (liankeOr503 c) m), [.cancelJobCall tid])) ∧
    (∀ (E : Env) (h : Headers) (phash : String) (did dk : Option String)
      (c : Option Int) (m : String),
      optStrTruthy h.apiKey = true →
      optStrTruthy (pyOr h.deviceId did) = true →
      optStrTruthy (pyOr h.deviceKey dk) = true →
      E.printer_status phash = .error (.lianke c m) →
      get_printer_status E h phash did dk =
        (.ok (mkResult (liankeOr503 c) m), [.printerStatusCall phash])) ∧
    (∀ (E : Env) (h : Headers) (url kwargs : String) (did dk : Option String)
      (hs ps js o cp col : String) (base jp : List (String × JValue)) (content : Bytes)
      (c : Option Int) (m : String),
      optStrTruthy h.apiKey = true →
      optStrTruthy (pyOr h.deviceId did) = true →
      optStrTruthy (pyOr h.deviceKey dk) = true →
      hs ≠ "" →
      buildBaseParams ps js o cp col = .ok base →
      mergeKwargs E.json_loads base kwargs = .ok jp →
      E.fetch url 30 = .ok content →
      E.add_job [("jobFile", filenameFromUrl url, content,
        resolveMimeUrl E.guess_type url)] (.str hs) jp = .error (.lianke c m) →
      submit_print_job E h url kwargs did dk (some hs) ps js o cp col =
        (.ok (mkResult (liankeOr503 c) m),
         [.fetchCall url 30,
          .addJobCall [("jobFile", filenameFromUrl url, content,
            resolveMimeUrl E.guess_type url)] (.str hs) jp])) ∧
    (∀ (E : Env) (h : Headers) (fp kwargs : String) (did dk : Option String)
      (hs ps js o cp col : String) (base jp : List (String × JValue)) (bytes : Bytes)
      (c : Option Int) (m : String),
      optStrTruthy h.apiKey = true →
      optStrTruthy (pyOr h.deviceId did) = true →
      optStrTruthy (pyOr h.deviceKey dk) = true →
      hs ≠ "" →
      E.path_exists fp = true →
      E.read_file fp = .ok bytes →
      buildBaseParams ps js o cp col = .ok base →
      mergeKwargs E.json_loads base kwargs = .ok jp →
      E.add_job [("jobFile", basename fp, bytes,
        resolveMimeFile E.guess_type fp (basename fp))] (.str hs) jp =
        .error (.lianke c m) →
      submit_print_job_with_file E h fp (some hs) kwargs did dk ps js o cp col =
        (.ok (mkResult (liankeOr503 c) m),
         [.addJobCall [("jobFile", basename fp, bytes,
           resolveMimeFile E.guess_type fp (basename fp))] (.str hs) jp])) ∧
    get_device_info envLianke hdrFull none none =
      (.error (.lianke (some 7) "远程故障"), [.deviceInfoCall]) := by
  refine ⟨rfl, rfl, ?_, ?_, ?_, ?_, ?_, ?_, ?_, ?_, rfl⟩
  · intro k hk
    simp [liankeOr503, hk]
  · intro E h did dk pt c m hA hI hK hp
    simp [get_printer_list, get_printer_list_body, handle, create_lianke_client,
      hA, hI, hK, hp]
  · intro E h phash did dk c m hA hI hK hp
    simp [get_printer_params, get_printer_params_body, handle, create_lianke_client,
      hA, hI, hK, hp]
  · intro E h tid did dk c m hA hI hK hp
    simp [get_job_status, get_job_status_body, handle, create_lianke_client,
      hA, hI, hK, hp]
  · intro E h tid did dk c m hA hI hK hp
    simp [cancel_print_job, cancel_print_job_body, handle, create_lianke_client,
      hA, hI, hK, hp]
  · intro E h phash did dk c m hA hI hK hp
    simp [get_printer_status, get_printer_status_body, handle, create_lianke_client,
      hA, hI, hK, hp]
  · intro E h url kwargs did dk hs ps js o cp col base jp content c m
      hA hI hK hhs hbp hmk hf haj
    have hhs' : (hs != "") = true := by simpa using hhs
    simp [submit_print_job, submit_print_job_body, handle, hashOfArg_some, truthy_str,
      create_lianke_client, hA, hI, hK, hhs', hbp, hmk, hf, haj]
  · intro E h fp kwargs did dk hs ps js o cp col base jp bytes c m
      hA hI hK hhs hfe hrd hbp hmk haj
    have hhs' : (hs != "") = true := by simpa using hhs
    simp [submit_print_job_with_file, submit_print_job_with_file_body, handle,
      hashOfArg_some, truthy_str, create_lianke_client, hA, hI, hK, hhs', hfe, hrd,
      hbp, hmk, haj]

theorem C9_remote_fault_mapping_witness :
    liankeOr503 (some 7) = 7 ∧
    get_printer_list envLianke hdrFull none none 1 =
      (.ok (mkResult (liankeOr503 (some 7)) "远程故障"), [.printerListCall 1]) ∧
    submit_print_job envLiankeZero hdrFull "http://h/a.pdf" "" none none (some "hx")
      "9" "fit" "1" "1" "1" =
      (.ok (mkResult (liankeOr503 (some 0)) "零码故障"),
       [.fetchCall "http://h/a.pdf" 30,
        .addJobCall [("jobFile", filenameFromUrl "http://h/a.pdf", [1, 2, 3],
          resolveMimeUrl envLiankeZero.guess_type "http://h/a.pdf")] (.str "hx")
          paramsDefault]) ∧
    submit_print_job_with_file envLiankeZero hdrFull "/tmp/a.pdf" (some "hx") "" none none
      "9" "fit" "1" "1" "1" =
      (.ok (mkResult (liankeOr503 (some 0)) "零码故障"),
       [.addJobCall [("jobFile", basename "/tmp/a.pdf", [7],
         resolveMimeFile envLiankeZero.guess_type "/tmp/a.pdf" (basename "/tmp/a.pdf"))]
         (.str "hx") paramsDefault]) ∧
    get_device_info envLianke hdrFull none none =
      (.error (.lianke (some 7) "远程故障"), [.deviceInfoCall]) :=
  ⟨C9_remote_fault_mapping.2.2.1 7 (by decide),
   C9_remote_fault_mapping.2.2.2.1 envLianke hdrFull none none 1 (some 7) "远程故障"
     (by decide) (by decide) (by decide) rfl,
   C9_remote_fault_mapping.2.2.2.2.2.2.2.2.1 envLiankeZero hdrFull "http://h/a.pdf" ""
     none none "hx" "9" "fit" "1" "1" "1" paramsDefault paramsDefault [1, 2, 3]
     (some 0) "零码故障" (by decide) (by decide) (by decide) (by decide) rfl rfl rfl rfl,
   C9_remote_fault_mapping.2.2.2.2.2.2.2.2.2.1 envLiankeZero hdrFull "/tmp/a.pdf" ""
     none none "hx" "9" "fit" "1" "1" "1" paramsDefault paramsDefault [7]
     (some 0) "零码故障" (by decide) (by decide) (by decide) (by decide) rfl rfl rfl rfl rfl,
   C9_remote_fault_mapping.2.2.2.2.2.2.2.2.2.2⟩

end LiankePrint

